import Mathlib

/-!
Shallow embedding of `src/main.rs` of the texture-sampling demo.

The program opens a window, builds a static six-vertex quad, loads one image
into a GPU texture, and renders the textured quad once per redraw event.
Pure data (the vertex array, descriptors, pixel formats) is embedded directly;
the fallible setup calls (`unwrap` on the shader library, the shader function
lookups, and the image decode) are embedded as `Except String` values where
`Except.error` stands for a Rust panic (process exit code 101); the stateful
GPU/event-loop interaction is embedded as explicit traces: `mainStartup`
returns the ordered list of completed startup steps, and `runHandler` returns
the ordered list of actions (GPU commands and redraw requests) the event
closure issues for one event.  Machine floats in the source only ever hold
exact small decimal constants that are stored and compared, never computed
with, so they are embedded as exact rationals.
-/

namespace TextureSampling

/-- Clip-space position record, Rust tuple struct `position(c_float, c_float)`
(`src/main.rs` line 26); field `x` is component `.0`, field `y` is `.1`. -/
structure position where
  x : ℚ
  y : ℚ
  deriving DecidableEq, Repr, Inhabited

/-- Texture-coordinate record, Rust tuple struct
`texture_coordinate(c_float, c_float)` (`src/main.rs` line 29); field `u` is
component `.0`, field `v` is `.1`. -/
structure texture_coordinate where
  u : ℚ
  v : ℚ
  deriving DecidableEq, Repr, Inhabited

/-- Vertex record `AAPLVertex { p: position, t: texture_coordinate }`
(`src/main.rs` lines 32-35). -/
structure AAPLVertex where
  p : position
  t : texture_coordinate
  deriving DecidableEq, Repr, Inhabited

/-- The static vertex array built inside the `vbuf` block
(`src/main.rs` lines 132-157), in source order. -/
def vertex_data : List AAPLVertex :=
  [ { p := ⟨1, -1⟩, t := ⟨1, 1⟩ },
    { p := ⟨1, 1⟩, t := ⟨1, 0⟩ },
    { p := ⟨-1, -1⟩, t := ⟨0, 1⟩ },
    { p := ⟨-1, -1⟩, t := ⟨0, 1⟩ },
    { p := ⟨1, 1⟩, t := ⟨1, 0⟩ },
    { p := ⟨-1, 1⟩, t := ⟨0, 0⟩ } ]

/-- Metal pixel formats used or mentionable by the program; the source only
ever names `MTLPixelFormat::BGRA8Unorm`. -/
inductive MTLPixelFormat
  | BGRA8Unorm
  | RGBA8Unorm
  | Invalid
  deriving DecidableEq, Repr, Inhabited

/-- Metal load actions for a render-pass color attachment. -/
inductive MTLLoadAction
  | DontCare
  | Load
  | Clear
  deriving DecidableEq, Repr, Inhabited

/-- Metal store actions for a render-pass color attachment. -/
inductive MTLStoreAction
  | DontCare
  | Store
  deriving DecidableEq, Repr, Inhabited

/-- Metal primitive types for `draw_primitives`. -/
inductive MTLPrimitiveType
  | Point
  | Line
  | Triangle
  deriving DecidableEq, Repr, Inhabited

/-- Metal clear color, `MTLClearColor::new(r, g, b, a)` with `f64` channels;
the program stores one constant color and never computes with it. -/
structure MTLClearColor where
  red : ℚ
  green : ℚ
  blue : ℚ
  alpha : ℚ
  deriving DecidableEq, Repr, Inhabited

/-- Metal region origin, `MTLOrigin { x, y, z }`. -/
structure MTLOrigin where
  x : ℕ
  y : ℕ
  z : ℕ
  deriving DecidableEq, Repr, Inhabited

/-- Metal region size, `MTLSize { width, height, depth }`. -/
structure MTLSize where
  width : ℕ
  height : ℕ
  depth : ℕ
  deriving DecidableEq, Repr, Inhabited

/-- Metal region, `MTLRegion { origin, size }` (`src/main.rs` lines 77-84). -/
structure MTLRegion where
  origin : MTLOrigin
  size : MTLSize
  deriving DecidableEq, Repr, Inhabited

/-- GPU-side textures are identified by an id; the drawable hands the frame
presenter such a texture each frame. -/
abbrev TextureId := ℕ

/-- One color attachment of a render-pass descriptor: the four properties the
program sets in `prepare_render_pass_descriptor`. -/
structure ColorAttachmentDescriptor where
  texture : Option TextureId
  loadAction : MTLLoadAction
  clearColor : MTLClearColor
  storeAction : MTLStoreAction
  deriving DecidableEq, Repr, Inhabited

/-- Metal default state of a fresh color attachment (texture unset, load and
store actions `DontCare`, clear color opaque black). -/
def ColorAttachmentDescriptor.initial : ColorAttachmentDescriptor :=
  { texture := none
    loadAction := .DontCare
    clearColor := ⟨0, 0, 0, 1⟩
    storeAction := .DontCare }

/-- Render-pass descriptor; the program only ever touches color attachment 0
(`descriptor.color_attachments().object_at(0)`). -/
structure RenderPassDescriptor where
  colorAttachment0 : ColorAttachmentDescriptor
  deriving DecidableEq, Repr, Inhabited

/-- A fresh descriptor, `RenderPassDescriptor::new()` (`src/main.rs` line 203). -/
def RenderPassDescriptor.new : RenderPassDescriptor :=
  { colorAttachment0 := ColorAttachmentDescriptor.initial }

/-- The fixed background color the program passes to `set_clear_color`,
`MTLClearColor::new(0.5, 0.5, 0.8, 0.1)` (`src/main.rs` line 43). -/
def background_color : MTLClearColor :=
  ⟨0.5, 0.5, 0.8, 0.1⟩

/-- Embedding of `prepare_render_pass_descriptor` (`src/main.rs` lines 37-45):
the in-place mutation of the descriptor becomes a function from the incoming
descriptor and the target texture to the updated descriptor.  It overwrites
the texture, load action, clear color and store action of color attachment 0. -/
def prepare_render_pass_descriptor (descriptor : RenderPassDescriptor)
    (texture : TextureId) : RenderPassDescriptor :=
  { descriptor with
    colorAttachment0 :=
      { texture := some texture
        loadAction := .Clear
        clearColor := background_color
        storeAction := .Store } }

/-- A shader function handle, carrying the name it was looked up by. -/
structure MTLFunction where
  name : String
  deriving DecidableEq, Repr, Inhabited

/-- A loaded shader library: the set of function names it exports.  The
`shaders.metallib` blob is opaque to the program, which only calls
`get_function` on it. -/
structure Library where
  functionNames : List String
  deriving DecidableEq, Repr, Inhabited

/-- `Library::get_function(name, None)`: `Some` handle when the library
exports the name, `None` otherwise. -/
def Library.get_function (self : Library) (name : String) : Option MTLFunction :=
  if name ∈ self.functionNames then some ⟨name⟩ else none

/-- The pipeline state as configured by `prepare_pipeline_state`: the vertex
and fragment functions and the pixel format of color attachment 0. -/
structure RenderPipelineState where
  vertexFunction : Option MTLFunction
  fragmentFunction : Option MTLFunction
  colorAttachment0PixelFormat : MTLPixelFormat
  deriving DecidableEq, Repr, Inhabited

/-- Embedding of `prepare_pipeline_state` (`src/main.rs` lines 47-63).  Each
Rust `.unwrap()` on a failed lookup is a panic, embedded as `Except.error`;
on success the function returns the pipeline state with the two named shader
functions and color attachment 0 fixed to `BGRA8Unorm`. -/
def prepare_pipeline_state (library : Library) : Except String RenderPipelineState :=
  match library.get_function "vertexShader" with
  | none => .error "called unwrap on a None value: vertexShader not found"
  | some vert =>
    match library.get_function "samplingShader" with
    | none => .error "called unwrap on a None value: samplingShader not found"
    | some frag =>
      .ok { vertexFunction := some vert
            fragmentFunction := some frag
            colorAttachment0PixelFormat := .BGRA8Unorm }

/-- Byte orders a decoded pixel buffer can be laid out in. -/
inductive ImageByteOrder
  | RGBA
  | BGRA
  deriving DecidableEq, Repr, Inhabited

/-- The byte order produced by the image crate's `into_rgba()` conversion
(`src/main.rs` line 67): RGBA, by the contract of the external decoder. -/
def into_rgba_order : ImageByteOrder := .RGBA

/-- The decoded image as the external `image` crate delivers it after
`image::open(source).unwrap().into_rgba()`: pixel dimensions (Rust `u32`,
embedded as ℕ) and the raw bytes of the RGBA buffer. -/
structure RgbaImage where
  width : ℕ
  height : ℕ
  data : List ℕ
  deriving DecidableEq, Repr, Inhabited

/-- Contract of the external decoder: an RGBA buffer holds exactly 4 bytes per
pixel, `4 * width * height` in total. -/
def RgbaImage.wellFormed (img : RgbaImage) : Prop :=
  img.data.length = 4 * img.width * img.height

/-- A GPU texture as allocated by `device.new_texture(&td)`: the descriptor
fields the program sets (`src/main.rs` lines 71-74). -/
structure Texture where
  width : ℕ
  height : ℕ
  pixelFormat : MTLPixelFormat
  deriving DecidableEq, Repr, Inhabited

/-- One `texture.replace_region(region, level, bytes_per_row, bytes)` call
(`src/main.rs` line 88); the raw pointer argument is embedded as the byte list
it points at, the whole decoded buffer `l`. -/
structure ReplaceRegionCall where
  region : MTLRegion
  mipmapLevel : ℕ
  bytesPerRow : ℕ
  bytes : List ℕ
  deriving DecidableEq, Repr, Inhabited

/-- Byte count the `replace_region` call uploads into the texture: one row of
`bytesPerRow` bytes per row of the region, over `height` rows and `depth`
slices. -/
def ReplaceRegionCall.uploadedByteCount (call : ReplaceRegionCall) : ℕ :=
  call.bytesPerRow * call.region.size.height * call.region.size.depth

/-- Embedding of `prepare_texture_from_file` (`src/main.rs` lines 65-91).  The
input is the result of the external decode chain `image::open(source)` and
`into_rgba()`: `none` when decoding failed, in which case the Rust
`image.unwrap()` panics (`Except.error`).  On success the function allocates a
texture whose descriptor copies the decoded dimensions and fixes the pixel
format to `BGRA8Unorm`, and issues one full-region `replace_region` upload at
mipmap level 0 with `bytes_per_row = 4 * width`. -/
def prepare_texture_from_file (decoded : Option RgbaImage) :
    Except String (Texture × ReplaceRegionCall) :=
  match decoded with
  | none => .error "called unwrap on an Err value: image decode failed"
  | some image_buffer =>
    let width := image_buffer.width
    let height := image_buffer.height
    let texture : Texture :=
      { width := width, height := height, pixelFormat := .BGRA8Unorm }
    let reg : MTLRegion :=
      { origin := { x := 0, y := 0, z := 0 }
        size := { width := width, height := height, depth := 1 } }
    let bytes_per_row := 4 * width
    let l := image_buffer.data
    .ok (texture, { region := reg, mipmapLevel := 0, bytesPerRow := bytes_per_row, bytes := l })

/-- A drawable handed out by `layer.next_drawable()`: its identity (for
`present_drawable`) and the texture backing it (for the render pass). -/
structure Drawable where
  id : ℕ
  texture : TextureId
  deriving DecidableEq, Repr, Inhabited

/-- The commands the Metal API offers on a command queue, command buffer and
render command encoder.  The `writeBuffer` command models the API's ability to
overwrite a buffer's contents after creation; this program never issues it. -/
inductive GpuCmd
  | newCommandBuffer
  | newRenderCommandEncoder (descriptor : RenderPassDescriptor)
  | setRenderPipelineState (state : RenderPipelineState)
  | setVertexBuffer (index : ℕ) (buffer : Option ℕ) (offset : ℕ)
  | setFragmentTexture (index : ℕ) (texture : Option TextureId)
  | drawPrimitives (primitiveType : MTLPrimitiveType) (vertexStart : ℕ) (vertexCount : ℕ)
  | endEncoding
  | presentDrawable (drawable : ℕ)
  | commit
  | writeBuffer (buffer : ℕ) (data : List ℕ)
  deriving DecidableEq, Repr

/-- The process-wide state the event-loop closure of `main` captures (by move,
with no `mut` binding anywhere, so the closure has no way to reassign any of
it): the pipeline state, the vertex buffer handle and the texture handle. -/
structure AppState where
  pipeline_state : RenderPipelineState
  vbuf : ℕ
  tref : TextureId
  deriving DecidableEq, Repr, Inhabited

/-- Winit control flow values the program uses. -/
inductive ControlFlow
  | Poll
  | Wait
  | Exit
  deriving DecidableEq, Repr, Inhabited

/-- The platform events the `main` event closure matches on.  A redraw event
carries the result of `layer.next_drawable()` at that moment: `none` when the
presentation layer has no drawable available. -/
inductive WinEvent
  | CloseRequested
  | MainEventsCleared
  | RedrawRequested (drawable : Option Drawable)
  | Other
  deriving DecidableEq, Repr, Inhabited

/-- Observable actions of one invocation of the event closure: a
`window.request_redraw()` call or a GPU command. -/
inductive Action
  | requestRedraw
  | gpu (cmd : GpuCmd)
  deriving DecidableEq, Repr

/-- The GPU command sequence of the `Event::RedrawRequested` arm once a
drawable has been acquired (`src/main.rs` lines 202-223), in source order:
prepare the render-pass descriptor against the drawable's texture, create one
command buffer, open one render command encoder, bind the pipeline state, the
vertex buffer at slot 0 and the fragment texture at slot 0, draw 6 vertices as
triangles starting at vertex 0, end encoding, schedule presentation of the
drawable, and commit. -/
def redrawFrame (st : AppState) (drawable : Drawable) : List GpuCmd :=
  let render_pass_descriptor :=
    prepare_render_pass_descriptor RenderPassDescriptor.new drawable.texture
  [ .newCommandBuffer,
    .newRenderCommandEncoder render_pass_descriptor,
    .setRenderPipelineState st.pipeline_state,
    .setVertexBuffer 0 (some st.vbuf) 0,
    .setFragmentTexture 0 (some st.tref),
    .drawPrimitives .Triangle 0 6,
    .endEncoding,
    .presentDrawable drawable.id,
    .commit ]

/-- One invocation of the event closure passed to `event_loop.run`
(`src/main.rs` lines 175-227): it first sets the control flow to `Wait`, then
matches the event.  `CloseRequested` sets the control flow to `Exit`;
`MainEventsCleared` requests a redraw; `RedrawRequested` runs the frame
presenter, returning early with no actions when `layer.next_drawable()` is
`None`; every other event does nothing.  The captured state is returned
unchanged in every arm, as the closure captures it immutably. -/
def runHandler (st : AppState) (event : WinEvent) : AppState × ControlFlow × List Action :=
  let control_flow := ControlFlow.Wait
  match event with
  | .CloseRequested => (st, ControlFlow.Exit, [])
  | .MainEventsCleared => (st, control_flow, [.requestRedraw])
  | .RedrawRequested od =>
    match od with
    | none => (st, control_flow, [])
    | some drawable => (st, control_flow, (redrawFrame st drawable).map Action.gpu)
  | .Other => (st, control_flow, [])

/-- The platform event loop around the closure, per the spec's description of
the external winit contract: events are dispatched to the closure one at a
time, and once an invocation leaves the control flow at `Exit` the loop exits
and dispatches nothing further.  Returns the log of dispatched events with the
actions each produced. -/
def runLoop (st : AppState) : List WinEvent → List (WinEvent × List Action)
  | [] => []
  | event :: rest =>
    match runHandler st event with
    | (st2, cf, acts) =>
      (event, acts) :: (if cf = ControlFlow.Exit then [] else runLoop st2 rest)

/-- The externally determined inputs of `main`'s setup sequence: whether
`Device::system_default()` finds a device, what `new_library_with_file`
loads (`none` when the `shaders.metallib` file cannot be opened), and what the
image decode of `Image.tga` yields (`none` when opening or decoding fails). -/
structure StartupInputs where
  deviceAvailable : Bool
  libraryFile : Option Library
  imageFile : Option RgbaImage
  deriving DecidableEq, Repr, Inhabited

/-- The steps of `main`'s setup sequence, in source order. -/
inductive StartupStep
  | windowCreated
  | deviceAcquired
  | commandQueueCreated
  | layerConfigured
  | vertexBufferCreated
  | libraryLoaded
  | pipelineStateCreated
  | textureCreated
  | eventLoopEntered
  deriving DecidableEq, Repr, Inhabited

/-- The presentation layer's configuration as set in `main`
(`src/main.rs` lines 115-118). -/
structure LayerConfig where
  pixelFormat : MTLPixelFormat
  presentsWithTransaction : Bool
  deriving DecidableEq, Repr, Inhabited

/-- The process-wide objects alive when `main` reaches `event_loop.run`. -/
structure RunningApp where
  layer : LayerConfig
  vertexData : List AAPLVertex
  pipeline_state : RenderPipelineState
  texture : Texture
  upload : ReplaceRegionCall
  deriving DecidableEq, Repr, Inhabited

/-- Embedding of `main`'s setup sequence (`src/main.rs` lines 93-175): the
window is built, the device acquired (`expect` panics when none is found), the
command queue created, the layer configured with `BGRA8Unorm`, the vertex
buffer created from `vertex_data`, the shader library loaded (`unwrap` panics
when the file cannot be opened), the pipeline state and texture prepared, and
the event loop entered.  Returns the ordered trace of completed steps and
either the running app or the panic message; a panic stops the sequence. -/
def mainStartup (inputs : StartupInputs) : List StartupStep × Except String RunningApp :=
  if inputs.deviceAvailable then
    let layer : LayerConfig := { pixelFormat := .BGRA8Unorm, presentsWithTransaction := false }
    let trace1 : List StartupStep :=
      [.windowCreated, .deviceAcquired, .commandQueueCreated, .layerConfigured,
       .vertexBufferCreated]
    match inputs.libraryFile with
    | none => (trace1, .error "called unwrap on an Err value: library file not found")
    | some library =>
      match prepare_pipeline_state library with
      | .error e => (trace1 ++ [.libraryLoaded], .error e)
      | .ok pipeline_state =>
        match prepare_texture_from_file inputs.imageFile with
        | .error e => (trace1 ++ [.libraryLoaded, .pipelineStateCreated], .error e)
        | .ok (texture, upload) =>
          (trace1 ++ [.libraryLoaded, .pipelineStateCreated, .textureCreated,
                      .eventLoopEntered],
           .ok { layer := layer
                 vertexData := vertex_data
                 pipeline_state := pipeline_state
                 texture := texture
                 upload := upload })
  else
    ([.windowCreated], .error "no device found")

/-- Exit code of the process as a function of how `main`'s setup ended: a Rust
panic terminates the process with exit code 101, otherwise setup handed off to
the event loop and the exit path is the loop's. -/
def processExitCode : Except String RunningApp → ℕ
  | .error _ => 101
  | .ok _ => 0

/-- Clip-space position of a vertex, as the pair the vertex shader consumes. -/
def clipPos (vtx : AAPLVertex) : ℚ × ℚ := (vtx.p.x, vtx.p.y)

/-- Membership in the filled triangle with corners `a`, `b`, `c`: the point is
a convex combination of the three corners. -/
def inTriangle (a b c p : ℚ × ℚ) : Prop :=
  ∃ α β γ : ℚ, 0 ≤ α ∧ 0 ≤ β ∧ 0 ≤ γ ∧ α + β + γ = 1 ∧
    p.1 = α * a.1 + β * b.1 + γ * c.1 ∧ p.2 = α * a.2 + β * b.2 + γ * c.2

/-- The clip-space square spanning (-1,-1) to (1,1). -/
def inClipSquare (p : ℚ × ℚ) : Prop :=
  -1 ≤ p.1 ∧ p.1 ≤ 1 ∧ -1 ≤ p.2 ∧ p.2 ≤ 1

/-- The first three vertices of `vertex_data` span the triangle of points on
or below the main diagonal of the clip-space square. -/
lemma inTriangle_lower_iff (p : ℚ × ℚ) :
    inTriangle (1, -1) (1, 1) (-1, -1) p ↔ p.2 ≤ p.1 ∧ -1 ≤ p.2 ∧ p.1 ≤ 1 := by
  constructor
  · rintro ⟨α, β, γ, hα, hβ, hγ, hsum, hx, hy⟩
    simp only [Prod.fst, Prod.snd] at hx hy
    refine ⟨by nlinarith, by nlinarith, by nlinarith⟩
  · rintro ⟨h1, h2, h3⟩
    exact ⟨(p.1 - p.2) / 2, (1 + p.2) / 2, (1 - p.1) / 2,
      by linarith, by linarith, by linarith, by ring, by ring, by ring⟩

/-- The last three vertices of `vertex_data` span the triangle of points on
or above the main diagonal of the clip-space square. -/
lemma inTriangle_upper_iff (p : ℚ × ℚ) :
    inTriangle (-1, -1) (1, 1) (-1, 1) p ↔ p.1 ≤ p.2 ∧ -1 ≤ p.1 ∧ p.2 ≤ 1 := by
  constructor
  · rintro ⟨α, β, γ, hα, hβ, hγ, hsum, hx, hy⟩
    simp only [Prod.fst, Prod.snd] at hx hy
    refine ⟨by nlinarith, by nlinarith, by nlinarith⟩
  · rintro ⟨h1, h2, h3⟩
    exact ⟨(1 - p.2) / 2, (1 + p.1) / 2, (p.2 - p.1) / 2,
      by linarith, by linarith, by linarith, by ring, by ring, by ring⟩

/-- Any successful `prepare_pipeline_state` result has color attachment 0
fixed to `BGRA8Unorm`. -/
lemma prepare_pipeline_state_pixelFormat (library : Library) (ps : RenderPipelineState)
    (h : prepare_pipeline_state library = Except.ok ps) :
    ps.colorAttachment0PixelFormat = MTLPixelFormat.BGRA8Unorm := by
  unfold prepare_pipeline_state at h
  split at h
  · simp at h
  · split at h
    · simp at h
    · simp only [Except.ok.injEq] at h
      subst h
      rfl

/-- Any successful `prepare_texture_from_file` result has its texture pixel
format fixed to `BGRA8Unorm`. -/
lemma prepare_texture_from_file_pixelFormat (decoded : Option RgbaImage)
    (tex : Texture) (call : ReplaceRegionCall)
    (h : prepare_texture_from_file decoded = Except.ok (tex, call)) :
    tex.pixelFormat = MTLPixelFormat.BGRA8Unorm := by
  cases decoded with
  | none => simp [prepare_texture_from_file] at h
  | some img =>
    simp only [prepare_texture_from_file, Except.ok.injEq, Prod.mk.injEq] at h
    obtain ⟨h1, h2⟩ := h
    rw [← h1]

/-- C1: for every frame in which a drawable is acquired, the redraw handler
performs exactly, and in this order: one new command buffer, one render
command encoder opened on the render-pass descriptor built for the drawable,
pipeline-state bind, vertex-buffer bind at vertex slot 0, texture bind at
fragment slot 0, one triangle-list draw of 6 vertices, end of encoding,
presentation scheduling of the acquired drawable, and commit. -/
theorem claim_C1_frame_command_sequence (st : AppState) (d : Drawable) :
    runHandler st (WinEvent.RedrawRequested (some d)) =
      (st, ControlFlow.Wait,
        [ Action.gpu .newCommandBuffer,
          Action.gpu (.newRenderCommandEncoder
            (prepare_render_pass_descriptor RenderPassDescriptor.new d.texture)),
          Action.gpu (.setRenderPipelineState st.pipeline_state),
          Action.gpu (.setVertexBuffer 0 (some st.vbuf) 0),
          Action.gpu (.setFragmentTexture 0 (some st.tref)),
          Action.gpu (.drawPrimitives .Triangle 0 6),
          Action.gpu .endEncoding,
          Action.gpu (.presentDrawable d.id),
          Action.gpu .commit ]) := rfl

/-- C5: a redraw event in which the layer reports no drawable aborts the frame
silently: the handler returns the captured state unchanged, leaves the control
flow at `Wait`, and issues no action at all (no command buffer, no encoding,
no draw, no error). -/
theorem claim_C5_no_drawable_skips_frame_silently (st : AppState) :
    runHandler st (WinEvent.RedrawRequested none) = (st, ControlFlow.Wait, []) := rfl

/-- C8: a close-window event makes the handler set the control flow to `Exit`,
and the loop then dispatches nothing further: whatever events were still
pending (a pending redraw included), the dispatch log of the whole run is the
single close event, which itself produced no action. -/
theorem claim_C8_close_event_stops_redraws (st : AppState) (pending : List WinEvent) :
    (runHandler st WinEvent.CloseRequested).2.1 = ControlFlow.Exit ∧
    runLoop st (WinEvent.CloseRequested :: pending) = [(WinEvent.CloseRequested, [])] :=
  ⟨rfl, rfl⟩

/-- C7: in every rendered frame, the render-pass descriptor handed to the
encoder targets exactly the acquired drawable's texture as color attachment 0,
with load action `Clear`, the one fixed background color, and store action
`Store`. -/
theorem claim_C7_render_pass_clear_store (st : AppState) (d : Drawable)
    (rp : RenderPassDescriptor)
    (h : GpuCmd.newRenderCommandEncoder rp ∈ redrawFrame st d) :
    rp.colorAttachment0.texture = some d.texture ∧
    rp.colorAttachment0.loadAction = MTLLoadAction.Clear ∧
    rp.colorAttachment0.clearColor = background_color ∧
    rp.colorAttachment0.storeAction = MTLStoreAction.Store := by
  simp only [redrawFrame, List.mem_cons, List.not_mem_nil, or_false,
    reduceCtorEq, false_or, GpuCmd.newRenderCommandEncoder.injEq] at h
  subst h
  exact ⟨rfl, rfl, rfl, rfl⟩

/-- A pipeline state as `prepare_pipeline_state` builds it from a library
exporting both shader functions. -/
def demoPipelineState : RenderPipelineState :=
  { vertexFunction := some ⟨"vertexShader"⟩
    fragmentFunction := some ⟨"samplingShader"⟩
    colorAttachment0PixelFormat := .BGRA8Unorm }

/-- A concrete captured state for witnesses. -/
def demoAppState : AppState :=
  { pipeline_state := demoPipelineState, vbuf := 0, tref := 0 }

/-- A concrete drawable for witnesses. -/
def demoDrawable : Drawable := { id := 1, texture := 2 }

/-- The render-pass descriptor the frame presenter builds for `demoDrawable`. -/
def demoRenderPass : RenderPassDescriptor :=
  prepare_render_pass_descriptor RenderPassDescriptor.new demoDrawable.texture

theorem claim_C7_witness :
    demoRenderPass.colorAttachment0.texture = some demoDrawable.texture ∧
    demoRenderPass.colorAttachment0.loadAction = MTLLoadAction.Clear ∧
    demoRenderPass.colorAttachment0.clearColor = background_color ∧
    demoRenderPass.colorAttachment0.storeAction = MTLStoreAction.Store :=
  claim_C7_render_pass_clear_store demoAppState demoDrawable demoRenderPass
    (List.mem_cons_of_mem _ (List.mem_cons_self _ _))

/-- C3: for every successfully decoded image, the created texture's dimensions
equal the decoded dimensions, and the one `replace_region` upload covers the
full texture at mipmap level 0 with origin (0,0,0), `bytes_per_row` of
`4 * width`, and a byte count of `width * height * 4`. -/
theorem claim_C3_texture_upload_wholesale (img : RgbaImage) (h : img.wellFormed) :
    ∃ tex call, prepare_texture_from_file (some img) = Except.ok (tex, call) ∧
      tex.width = img.width ∧ tex.height = img.height ∧
      call.bytes.length = img.width * img.height * 4 ∧
      call.bytesPerRow = 4 * img.width ∧
      call.region.origin = ⟨0, 0, 0⟩ ∧
      call.region.size = ⟨img.width, img.height, 1⟩ ∧
      call.mipmapLevel = 0 ∧
      call.uploadedByteCount = img.width * img.height * 4 := by
  refine ⟨_, _, rfl, rfl, rfl, ?_, rfl, rfl, rfl, rfl, ?_⟩
  · unfold RgbaImage.wellFormed at h
    rw [h]; ring
  · unfold ReplaceRegionCall.uploadedByteCount
    ring

/-- A 2-by-2 decoded image with its 16 RGBA bytes, for witnesses. -/
def demoImage : RgbaImage := { width := 2, height := 2, data := List.replicate 16 0 }

theorem claim_C3_witness :
    demoImage.wellFormed ∧
    (∃ tex call, prepare_texture_from_file (some demoImage) = Except.ok (tex, call) ∧
      tex.width = demoImage.width ∧ tex.height = demoImage.height ∧
      call.bytes.length = demoImage.width * demoImage.height * 4 ∧
      call.bytesPerRow = 4 * demoImage.width ∧
      call.region.origin = ⟨0, 0, 0⟩ ∧
      call.region.size = ⟨demoImage.width, demoImage.height, 1⟩ ∧
      call.mipmapLevel = 0 ∧
      call.uploadedByteCount = demoImage.width * demoImage.height * 4) :=
  ⟨rfl, claim_C3_texture_upload_wholesale demoImage rfl⟩

/-- C4: whenever the shader-library file cannot be opened, `main`'s setup ends
in a panic: the process outcome is the non-zero exit code 101, the result
carries an error and no running app, and the event loop step — the only point
from which frames are ever presented to the window — is never reached. -/
theorem claim_C4_missing_library_is_fatal (inputs : StartupInputs)
    (h : inputs.libraryFile = none) :
    processExitCode (mainStartup inputs).2 ≠ 0 ∧
    (∃ msg, (mainStartup inputs).2 = Except.error msg) ∧
    StartupStep.eventLoopEntered ∉ (mainStartup inputs).1 := by
  rcases inputs with ⟨da, lib, img⟩
  cases h
  cases da <;> simp [mainStartup, processExitCode]

/-- Startup inputs in which the shader library file is missing. -/
def noLibraryInputs : StartupInputs :=
  { deviceAvailable := true, libraryFile := none, imageFile := none }

theorem claim_C4_witness :
    processExitCode (mainStartup noLibraryInputs).2 ≠ 0 ∧
    (∃ msg, (mainStartup noLibraryInputs).2 = Except.error msg) ∧
    StartupStep.eventLoopEntered ∉ (mainStartup noLibraryInputs).1 :=
  claim_C4_missing_library_is_fatal noLibraryInputs rfl

/-- C6: when either named shader function is absent from the library, pipeline
construction yields no pipeline state at all — the result is a panic, with no
fallback and no partial result — and any startup run over such a library ends
in a panic as well. -/
theorem claim_C6_missing_function_is_fatal (library : Library)
    (h : "vertexShader" ∉ library.functionNames ∨
         "samplingShader" ∉ library.functionNames) :
    (∀ ps, prepare_pipeline_state library ≠ Except.ok ps) ∧
    (∃ msg, prepare_pipeline_state library = Except.error msg) ∧
    (∀ inputs : StartupInputs, inputs.libraryFile = some library →
      ∃ msg, (mainStartup inputs).2 = Except.error msg) := by
  have hmain : ∃ msg, prepare_pipeline_state library = Except.error msg := by
    unfold prepare_pipeline_state Library.get_function
    rcases h with h | h
    · simp [h]
    · by_cases hv : "vertexShader" ∈ library.functionNames
      · simp [hv, h]
      · simp [hv]
  obtain ⟨msg, hmsg⟩ := hmain
  refine ⟨?_, ⟨msg, hmsg⟩, ?_⟩
  · intro ps hps
    rw [hmsg] at hps
    cases hps
  · intro inputs hlib
    rcases inputs with ⟨da, lib, img⟩
    cases hlib
    cases da
    · exact ⟨"no device found", by simp [mainStartup]⟩
    · simp [mainStartup, hmsg]

/-- A library exporting neither shader function. -/
def emptyLibrary : Library := { functionNames := [] }

theorem claim_C6_witness :
    (∀ ps, prepare_pipeline_state emptyLibrary ≠ Except.ok ps) ∧
    (∃ msg, prepare_pipeline_state emptyLibrary = Except.error msg) ∧
    (∀ inputs : StartupInputs, inputs.libraryFile = some emptyLibrary →
      ∃ msg, (mainStartup inputs).2 = Except.error msg) :=
  claim_C6_missing_function_is_fatal emptyLibrary (Or.inl (by decide))

/-- C9: every pixel-format-bearing object the startup sequence configures —
the presentation layer, color attachment 0 of the pipeline state, and the
texture — carries `BGRA8Unorm`, even though the image bytes are decoded in
RGBA order before upload. -/
theorem claim_C9_uniform_pixel_format (inputs : StartupInputs) (app : RunningApp)
    (h : (mainStartup inputs).2 = Except.ok app) :
    app.layer.pixelFormat = MTLPixelFormat.BGRA8Unorm ∧
    app.pipeline_state.colorAttachment0PixelFormat = MTLPixelFormat.BGRA8Unorm ∧
    app.texture.pixelFormat = MTLPixelFormat.BGRA8Unorm ∧
    into_rgba_order = ImageByteOrder.RGBA := by
  unfold mainStartup at h
  split at h
  · split at h
    · simp at h
    · split at h
      · simp at h
      · split at h
        · simp at h
        · simp only [Except.ok.injEq] at h
          subst h
          refine ⟨rfl, ?_, ?_, rfl⟩
          · exact prepare_pipeline_state_pixelFormat _ _ (by assumption)
          · exact prepare_texture_from_file_pixelFormat _ _ _ (by assumption)
  · simp at h

/-- A library exporting both shader functions. -/
def demoLibrary : Library := { functionNames := ["vertexShader", "samplingShader"] }

/-- Startup inputs in which every external input succeeds. -/
def demoInputs : StartupInputs :=
  { deviceAvailable := true, libraryFile := some demoLibrary, imageFile := some demoImage }

/-- The running app `mainStartup demoInputs` hands to the event loop. -/
def demoApp : RunningApp :=
  { layer := { pixelFormat := .BGRA8Unorm, presentsWithTransaction := false }
    vertexData := vertex_data
    pipeline_state := demoPipelineState
    texture := { width := 2, height := 2, pixelFormat := .BGRA8Unorm }
    upload :=
      { region := { origin := { x := 0, y := 0, z := 0 }
                    size := { width := 2, height := 2, depth := 1 } }
        mipmapLevel := 0
        bytesPerRow := 8
        bytes := List.replicate 16 0 } }

theorem claim_C9_witness :
    demoApp.layer.pixelFormat = MTLPixelFormat.BGRA8Unorm ∧
    demoApp.pipeline_state.colorAttachment0PixelFormat = MTLPixelFormat.BGRA8Unorm ∧
    demoApp.texture.pixelFormat = MTLPixelFormat.BGRA8Unorm ∧
    into_rgba_order = ImageByteOrder.RGBA :=
  claim_C9_uniform_pixel_format demoInputs demoApp rfl

/-- C10: every vertex of the buffer flips the vertical texture coordinate
relative to clip space — clip `y = -1` carries `v = 1` and clip `y = 1`
carries `v = 0` — while the horizontal coordinate maps directly, clip `x = -1`
to `u = 0` and clip `x = 1` to `u = 1`. -/
theorem claim_C10_texture_v_flip :
    ∀ vtx ∈ vertex_data,
      (vtx.p.y = -1 → vtx.t.v = 1) ∧ (vtx.p.y = 1 → vtx.t.v = 0) ∧
      (vtx.p.x = -1 → vtx.t.u = 0) ∧ (vtx.p.x = 1 → vtx.t.u = 1) := by
  decide

/-- The first vertex of `vertex_data`. -/
def firstVertex : AAPLVertex := { p := ⟨1, -1⟩, t := ⟨1, 1⟩ }

theorem claim_C10_witness :
    (firstVertex.p.y = -1 → firstVertex.t.v = 1) ∧
    (firstVertex.p.y = 1 → firstVertex.t.v = 0) ∧
    (firstVertex.p.x = -1 → firstVertex.t.u = 0) ∧
    (firstVertex.p.x = 1 → firstVertex.t.u = 1) :=
  claim_C10_texture_v_flip firstVertex (by decide)

/-- C2: the vertex buffer holds exactly 6 vertices; their clip-space positions
are two triangles whose union is exactly the clip-space square from (-1,-1) to
(1,1); every texture coordinate lies in [0,1] in both axes and all four
corners (0,0), (1,0), (0,1), (1,1) are attained; the event closure never
changes the captured state in any arm, and any startup run creates the vertex
buffer at most once — exactly once on every run that reaches the event loop. -/
theorem claim_C2_vertex_buffer_is_full_screen_quad :
    vertex_data.length = 6 ∧
    vertex_data.map clipPos = [(1, -1), (1, 1), (-1, -1), (-1, -1), (1, 1), (-1, 1)] ∧
    (∀ p : ℚ × ℚ,
      (inTriangle (1, -1) (1, 1) (-1, -1) p ∨ inTriangle (-1, -1) (1, 1) (-1, 1) p) ↔
        inClipSquare p) ∧
    (vertex_data.all fun vtx =>
      decide (0 ≤ vtx.t.u ∧ vtx.t.u ≤ 1 ∧ 0 ≤ vtx.t.v ∧ vtx.t.v ≤ 1)) = true ∧
    ((⟨0, 0⟩ : texture_coordinate) ∈ vertex_data.map AAPLVertex.t ∧
     (⟨1, 0⟩ : texture_coordinate) ∈ vertex_data.map AAPLVertex.t ∧
     (⟨0, 1⟩ : texture_coordinate) ∈ vertex_data.map AAPLVertex.t ∧
     (⟨1, 1⟩ : texture_coordinate) ∈ vertex_data.map AAPLVertex.t) ∧
    (∀ st event, (runHandler st event).1 = st) ∧
    (∀ inputs,
      (mainStartup inputs).1.count StartupStep.vertexBufferCreated ≤ 1 ∧
      (StartupStep.eventLoopEntered ∈ (mainStartup inputs).1 →
        (mainStartup inputs).1.count StartupStep.vertexBufferCreated = 1)) := by
  refine ⟨rfl, by decide, ?_, by decide, by decide, ?_, ?_⟩
  · intro p
    constructor
    · rintro (h | h)
      · obtain ⟨h1, h2, h3⟩ := (inTriangle_lower_iff p).mp h
        exact ⟨by linarith, h3, h2, by linarith⟩
      · obtain ⟨h1, h2, h3⟩ := (inTriangle_upper_iff p).mp h
        exact ⟨h2, by linarith, by linarith, h3⟩
    · rintro ⟨h1, h2, h3, h4⟩
      rcases le_total p.1 p.2 with hle | hle
      · exact Or.inr ((inTriangle_upper_iff p).mpr ⟨hle, h1, h4⟩)
      · exact Or.inl ((inTriangle_lower_iff p).mpr ⟨hle, h3, h2⟩)
  · intro st event
    cases event with
    | CloseRequested => rfl
    | MainEventsCleared => rfl
    | RedrawRequested od => cases od <;> rfl
    | Other => rfl
  · intro inputs
    rcases inputs with ⟨da, lib, img⟩
    cases da with
    | false =>
      have htr : (mainStartup ⟨false, lib, img⟩).1 = [StartupStep.windowCreated] := rfl
      rw [htr]
      exact ⟨by decide, by decide⟩
    | true =>
      cases lib with
      | none =>
        have htr : (mainStartup ⟨true, none, img⟩).1 =
            [StartupStep.windowCreated, .deviceAcquired, .commandQueueCreated,
             .layerConfigured, .vertexBufferCreated] := rfl
        rw [htr]
        exact ⟨by decide, by decide⟩
      | some library =>
        rcases hps : prepare_pipeline_state library with e | ps
        · have htr : (mainStartup ⟨true, some library, img⟩).1 =
              [StartupStep.windowCreated, .deviceAcquired, .commandQueueCreated,
               .layerConfigured, .vertexBufferCreated, .libraryLoaded] := by
            simp [mainStartup, hps]
          rw [htr]
          exact ⟨by decide, by decide⟩
        · rcases htex : prepare_texture_from_file img with e | tc
          · have htr : (mainStartup ⟨true, some library, img⟩).1 =
                [StartupStep.windowCreated, .deviceAcquired, .commandQueueCreated,
                 .layerConfigured, .vertexBufferCreated, .libraryLoaded,
                 .pipelineStateCreated] := by
              simp [mainStartup, hps, htex]
            rw [htr]
            exact ⟨by decide, by decide⟩
          · obtain ⟨tex, call⟩ := tc
            have htr : (mainStartup ⟨true, some library, img⟩).1 =
                [StartupStep.windowCreated, .deviceAcquired, .commandQueueCreated,
                 .layerConfigured, .vertexBufferCreated, .libraryLoaded,
                 .pipelineStateCreated, .textureCreated, .eventLoopEntered] := by
              simp [mainStartup, hps, htex]
            rw [htr]
            exact ⟨by decide, by decide⟩

end TextureSampling
